import Mathlib

/-!
Verification of the churn-risk engine of the gym-management service
(`api/main.py`, `consumer.py`, `churn_model.py`).

Conventions of the shallow embedding:
* Timestamps and the reference instant `now` are integers counting seconds
  (UTC).  A timestamp lacking a zone is normalized to UTC by the source, so
  a single integer axis models both cases.  Python `timedelta.days` is floor
  division of the difference in seconds by 86400, embedded as `Int.fdiv`.
* Durations are optional non-negative minutes (`Option Nat`), matching the
  declared input contract of the core.
* Python floats are embedded as rationals; `round(x, n)` on floats is
  round-half-to-even on the scaled value, embedded exactly on rationals.
* The source sorts the check-in list by timestamp descending and uses the
  sorted list only for its first element (maximum timestamp), its last
  element (minimum timestamp), its length, the sum of the non-null
  durations, and a filter; length, sum and filter are order independent,
  so the embedding keeps the list unsorted and uses `maxTs` / `minTs` for
  the two extremes.
* The reason strings built with f-strings are embedded as the inductive
  type `Motivo`; each constructor carries the numeric payload exactly as
  it is formatted into the string (probability to 2 decimals, duration and
  frequency to 1 decimal, day count verbatim).
* The model (`ChurnPredictor`) is the black box the spec declares it to be:
  the risk endpoint takes the prediction function as a parameter, and the
  lifecycle component is parameterized by an abstract artifact type and an
  abstract deterministic fitting function taking the random seed.
-/

namespace Academia

/-- A check-in record: timestamp in seconds UTC and optional visit duration
in minutes (`duracao_minutos` is nullable in the schema; the input contract
of the core declares it as an optional non-negative integer). -/
structure Checkin where
  timestamp : ℤ
  duracao : Option ℕ
deriving DecidableEq, Repr

/-- Seconds in one day; `timedelta.days` divides by this and floors. -/
def segundosPorDia : ℤ := 86400

/-- Timestamp of the first element of the descending sort of a non-empty
history, namely the maximum timestamp (`checkins_do_aluno[0]`); 0 on the
empty list, where the source never evaluates it. -/
def maxTs : List Checkin → ℤ
  | [] => 0
  | c :: cs => cs.foldl (fun m c2 => max m c2.timestamp) c.timestamp

/-- Timestamp of the last element of the descending sort of a non-empty
history, namely the minimum timestamp (`checkins_do_aluno[-1]`); 0 on the
empty list, where the source never evaluates it. -/
def minTs : List Checkin → ℤ
  | [] => 0
  | c :: cs => cs.foldl (fun m c2 => min m c2.timestamp) c.timestamp

/-- `dias_desde_ultimo_checkin`: 999 on an empty history, otherwise the
whole-day floor of `now` minus the maximum check-in timestamp
(`(datetime.now(utc) - ultimo_checkin_timestamp).days`). -/
def diasDesdeUltimoCheckin (now : ℤ) (history : List Checkin) : ℤ :=
  if history.isEmpty then 999
  else (now - maxTs history).fdiv segundosPorDia

/-- Sum of the non-null durations
(`sum([c.duracao_minutos for c in checkins if c.duracao_minutos is not None])`). -/
def duracaoTotal (history : List Checkin) : ℕ :=
  (history.filterMap Checkin.duracao).sum

/-- `duracao_media_visitas_minutos` before rounding: the sum of the
non-null durations over the count of all check-ins when both the count and
the total are positive, 0 otherwise. -/
def duracaoMediaVisitas (history : List Checkin) : ℚ :=
  if 0 < history.length then
    if 0 < duracaoTotal history then
      (duracaoTotal history : ℚ) / (history.length : ℚ)
    else 0
  else 0

/-- `frequencia_semanal`: 0 on an empty history; otherwise the base
estimate `len(checkins) / total_dias_ativo * 7` when the whole-day age of
the earliest check-in is positive (else 0), overridden by
`len(checkins_ultimos_30_dias) / (30/7)` whenever at least one check-in
has timestamp at least `now` minus 30 days. -/
def frequenciaSemanal (now : ℤ) (history : List Checkin) : ℚ :=
  if history.isEmpty then 0
  else
    let totalDiasAtivo : ℤ := (now - minTs history).fdiv segundosPorDia
    let base : ℚ :=
      if 0 < totalDiasAtivo then
        ((history.length : ℚ) / (totalDiasAtivo : ℚ)) * 7
      else 0
    let recentes := history.filter fun c =>
      decide (now - 30 * segundosPorDia ≤ c.timestamp)
    if 0 < recentes.length then (recentes.length : ℚ) / ((30 : ℚ) / 7)
    else base

/-- `tipo_plano_encoded`: 1 / 2 / 3 for the three recognized plan names,
0 otherwise, including the absent plan. -/
def tipoPlanoEncode (plano : Option String) : ℕ :=
  match plano with
  | none => 0
  | some nome =>
      if nome = "Mensal" then 1
      else if nome = "Trimestral" then 2
      else if nome = "Anual" then 3
      else 0

/-- Round-half-to-even to the nearest integer, the rounding of Python
`round` idealized on rationals. -/
def rhe (q : ℚ) : ℤ :=
  if q - (⌊q⌋ : ℚ) < 1 / 2 then ⌊q⌋
  else if (1 : ℚ) / 2 < q - (⌊q⌋ : ℚ) then ⌊q⌋ + 1
  else if ⌊q⌋ % 2 = 0 then ⌊q⌋ else ⌊q⌋ + 1

/-- Python `round(x, 1)` idealized on rationals. -/
def round1 (q : ℚ) : ℚ := (rhe (q * 10) : ℚ) / 10

/-- Python `round(x, 2)` idealized on rationals. -/
def round2 (q : ℚ) : ℚ := (rhe (q * 100) : ℚ) / 100

/-- The feature vector `aluno_metrics` handed to the predictor: raw weekly
frequency, raw day count, duration rounded to 1 decimal, plan code. -/
structure Metricas where
  frequenciaSemanal : ℚ
  diasDesdeUltimoCheckin : ℤ
  duracaoMediaVisitasMinutos : ℚ
  tipoPlanoEncoded : ℕ
deriving DecidableEq, Repr

/-- Builds `aluno_metrics` from the check-in history, the reference
instant and the plan name. -/
def computeMetricas (now : ℤ) (history : List Checkin) (plano : Option String) :
    Metricas :=
  { frequenciaSemanal := frequenciaSemanal now history
    diasDesdeUltimoCheckin := diasDesdeUltimoCheckin now history
    duracaoMediaVisitasMinutos := round1 (duracaoMediaVisitas history)
    tipoPlanoEncoded := tipoPlanoEncode plano }

/-- A reason string of the risk assessment, one constructor per f-string
template of the source; the numeric argument is the value as it is
formatted into the string. -/
inductive Motivo where
  | probMuitoAlta (p : ℚ)
  | probAlta (p : ℚ)
  | probMedia (p : ℚ)
  | probBaixa (p : ℚ)
  | ultimoCheckinDias (dias : ℤ)
  | duracaoMediaBaixa (d : ℚ)
  | frequenciaAbaixo (f : ℚ)
  | modeloIndisponivel
  | semCheckins
deriving DecidableEq, Repr

/-- The three contextual reasons of step 4 of the classifier. -/
def Motivo.contextual : Motivo → Bool
  | ultimoCheckinDias _ => true
  | duracaoMediaBaixa _ => true
  | frequenciaAbaixo _ => true
  | _ => false

/-- Steps 2 to 4 of the risk classifier: the probability-threshold chain
with the tier reason, then the three contextual reasons, each guarded by
its numeric condition and by the tier not being "Baixo"; the unavailable
probability gives the dedicated error tier.  Returns the tier and the
reason list in append order. -/
def classificaRisco (churnProb : Option ℚ) (dias : ℤ) (duracaoMedia : ℚ)
    (freq : ℚ) (totalCheckins : ℕ) : String × List Motivo :=
  match churnProb with
  | some p =>
      let par : String × List Motivo :=
        if 7 / 10 ≤ p then ("Muito Alto", [Motivo.probMuitoAlta (round2 p)])
        else if 1 / 2 ≤ p then ("Alto", [Motivo.probAlta (round2 p)])
        else if 3 / 10 ≤ p then ("Médio", [Motivo.probMedia (round2 p)])
        else ("Baixo", [Motivo.probBaixa (round2 p)])
      let m1 :=
        if 15 < dias ∧ par.1 ≠ "Baixo" then
          par.2 ++ [Motivo.ultimoCheckinDias dias]
        else par.2
      let m2 :=
        if duracaoMedia < 30 ∧ 5 < totalCheckins ∧ par.1 ≠ "Baixo" then
          m1 ++ [Motivo.duracaoMediaBaixa (round1 duracaoMedia)]
        else m1
      let m3 :=
        if freq < 1 ∧ 5 < totalCheckins ∧ par.1 ≠ "Baixo" then
          m2 ++ [Motivo.frequenciaAbaixo (round1 freq)]
        else m2
      (par.1, m3)
  | none => ("Erro na Previsão", [Motivo.modeloIndisponivel])

/-- The metrics block of the response payload; `diasDesdeUltimoCheckin`
is `none` exactly where the source substitutes the string "N/A". -/
structure MetricasResposta where
  frequenciaSemanal : ℚ
  diasDesdeUltimoCheckin : Option ℤ
  duracaoMediaVisitasMinutos : ℚ
  tipoPlanoEncoded : ℕ
  totalCheckinsRegistrados : ℕ
deriving DecidableEq, Repr

/-- The risk assessment returned by the endpoint; `probabilidade = none`
renders as the string "N/A", and `motivos` is the deduplicated reason
collection (`list(set(motivos_risco))`). -/
structure RiscoChurnResponse where
  classificacao : String
  probabilidade : Option ℚ
  motivos : List Motivo
  metricas : MetricasResposta
deriving Repr

/-- The risk query `GET /alunos/<id>/risco-churn`: computes the feature
vector, asks the predictor (passed in as the black-box function `predict`)
for a probability, classifies, then unconditionally overrides tier,
reasons and reported metrics when the history is empty; the probability
field is `round(churn_prob, 2)` whenever the predictor returned a value,
also in the empty-history case. -/
def riscoChurnGet (predict : Metricas → Option ℚ) (now : ℤ)
    (history : List Checkin) (plano : Option String) : RiscoChurnResponse :=
  let metricas := computeMetricas now history plano
  let duracaoMedia := duracaoMediaVisitas history
  let churnProb := predict metricas
  let passo3 := classificaRisco churnProb metricas.diasDesdeUltimoCheckin
    duracaoMedia metricas.frequenciaSemanal history.length
  let vazio := history.isEmpty
  { classificacao := if vazio then "Indeterminado" else passo3.1
    probabilidade := Option.map round2 churnProb
    motivos := (if vazio then [Motivo.semCheckins] else passo3.2).dedup
    metricas :=
      { frequenciaSemanal := round2 (if vazio then 0 else metricas.frequenciaSemanal)
        diasDesdeUltimoCheckin :=
          if vazio then none else some metricas.diasDesdeUltimoCheckin
        duracaoMediaVisitasMinutos := round1 (if vazio then 0 else duracaoMedia)
        tipoPlanoEncoded := metricas.tipoPlanoEncoded
        totalCheckinsRegistrados := history.length } }

/-! ## Event consumer (`consumer.py`) -/

/-- The dictionary shape of a decoded queue message, with the fields the
dispatch reads; an absent field is `none`. -/
structure RawMessage where
  type : Option String
  checkinId : Option ℤ
  idAluno : Option ℤ
  checkinIds : Option (List ℤ)
  reportDate : Option String
deriving DecidableEq, Repr

/-- An observable handler side effect (prints and sleeps aside): the
per-check-in processing work, the daily report read, the model retrain. -/
inductive Effect where
  | checkinProcessado (checkinId idAluno : Option ℤ)
  | bulkItemProcessado (checkinId : ℤ)
  | relatorioGerado (date : ℤ)
  | modeloRetreinado
deriving DecidableEq, Repr

/-- Final state of one delivery. -/
inductive Outcome where
  | acked
  | nacked
deriving DecidableEq, Repr

/-- The dispatch chain of `process_checkin_message` on a decoded message:
returns the handler side effects, whether the unknown-type warning was
logged, and whether the handler raised.  `parseIsoDate` abstracts
`datetime.fromisoformat` (`none` is the `ValueError` case) and `nowDate`
the default report date `datetime.now(utc).date()`. -/
def dispatchMessage (parseIsoDate : String → Option ℤ) (nowDate : ℤ)
    (raw : RawMessage) : List Effect × Bool × Bool :=
  if raw.type = some "new_checkin_event" then
    ([Effect.checkinProcessado raw.checkinId raw.idAluno], false, false)
  else if raw.type = some "bulk_checkin_event" then
    (((raw.checkinIds.getD []).map Effect.bulkItemProcessado), false, false)
  else if raw.type = some "generate_daily_report_event" then
    match raw.reportDate with
    | none => ([Effect.relatorioGerado nowDate], false, false)
    | some s =>
        match parseIsoDate s with
        | some d => ([Effect.relatorioGerado d], false, false)
        | none => ([], false, true)
  else if raw.type = some "retrain_model_event" then
    ([Effect.modeloRetreinado], false, false)
  else
    ([], true, false)

/-- `process_checkin_message` on one delivery: `body = none` is a payload
that fails JSON decoding, which is negatively acknowledged; a decoded
message is dispatched, acknowledged when the handler completed, negatively
acknowledged when it raised.  Returns the outcome, the side effects and
the warning flag. -/
def processCheckinMessage (parseIsoDate : String → Option ℤ) (nowDate : ℤ)
    (body : Option RawMessage) : Outcome × List Effect × Bool :=
  match body with
  | none => (Outcome.nacked, [], false)
  | some raw =>
      let r := dispatchMessage parseIsoDate nowDate raw
      if r.2.2 then (Outcome.nacked, r.1, r.2.1)
      else (Outcome.acked, r.1, r.2.1)

/-! ## Churn model lifecycle (`churn_model.py`) -/

/-- One row of the training dataset of `create_dummy_data`. -/
structure LinhaTreino where
  frequenciaSemanal : ℚ
  diasDesdeUltimoCheckin : ℚ
  duracaoMediaVisitasMinutos : ℚ
  tipoPlanoEncoded : ℚ
  churn : ℚ
deriving DecidableEq, Repr

/-- The fixed dataset literal of `create_dummy_data`, row by row. -/
def createDummyData : List LinhaTreino :=
  [ ⟨5, 1, 60, 1, 0⟩, ⟨4, 5, 55, 2, 0⟩, ⟨1, 10, 40, 1, 0⟩,
    ⟨1 / 2, 20, 25, 1, 1⟩, ⟨3, 3, 70, 3, 0⟩, ⟨2, 7, 50, 2, 0⟩,
    ⟨0, 40, 20, 1, 1⟩, ⟨6, 2, 65, 3, 0⟩, ⟨3 / 2, 15, 35, 1, 1⟩,
    ⟨1 / 5, 60, 15, 1, 1⟩, ⟨9 / 2, 4, 75, 2, 0⟩, ⟨19 / 5, 6, 68, 3, 0⟩,
    ⟨4 / 5, 25, 28, 1, 1⟩, ⟨0, 90, 10, 1, 1⟩, ⟨5, 8, 80, 3, 0⟩,
    ⟨5 / 2, 12, 48, 2, 0⟩, ⟨6 / 5, 18, 33, 1, 1⟩, ⟨31 / 10, 5, 62, 3, 0⟩ ]

/-- The predictor state: the in-memory artifact, `none` before a load. -/
structure PredictorState (Modelo : Type) where
  model : Option Modelo
deriving Repr

/-- `train_model`: fits a logistic regression with `random_state=42` on
the given rows and stores (and persists) the artifact; `fitLR` is the
black-box fitting algorithm, taking the seed and the rows. -/
def trainModel {Modelo : Type} (fitLR : ℕ → List LinhaTreino → Modelo)
    (data : List LinhaTreino) : PredictorState Modelo :=
  { model := some (fitLR 42 data) }

/-- `load_model`: adopt the artifact found on disk, else train a fresh one
on the dummy dataset. -/
def loadModel {Modelo : Type} (fitLR : ℕ → List LinhaTreino → Modelo)
    (diskModel : Option Modelo) (s : PredictorState Modelo) :
    PredictorState Modelo :=
  match diskModel with
  | some m => { s with model := some m }
  | none => trainModel fitLR createDummyData

/-- `retrain_and_save_model`: refit on `create_dummy_data()` and replace
the artifact. -/
def retrainAndSaveModel {Modelo : Type}
    (fitLR : ℕ → List LinhaTreino → Modelo) (_s : PredictorState Modelo) :
    PredictorState Modelo :=
  trainModel fitLR createDummyData

/-- `predict_churn_probability`: load first when no artifact is in memory,
then fail open with `none` when still absent, else apply the artifact to
the feature vector through the black-box `predictProba`. -/
def predictChurnProbability {Modelo : Type}
    (fitLR : ℕ → List LinhaTreino → Modelo)
    (predictProba : Modelo → Metricas → ℚ) (diskModel : Option Modelo)
    (s : PredictorState Modelo) (feats : Metricas) :
    Option ℚ × PredictorState Modelo :=
  let s1 := if s.model.isNone then loadModel fitLR diskModel s else s
  match s1.model with
  | none => (none, s1)
  | some m => (some (predictProba m feats), s1)

/-! ## Shared lemmas -/

lemma rhe_intCast (n : ℤ) : rhe (n : ℚ) = n := by
  simp [rhe]

lemma round2_of_mul_eq {q : ℚ} {a : ℤ} (h : q * 100 = (a : ℚ)) :
    round2 q = (a : ℚ) / 100 := by
  rw [round2, h, rhe_intCast]

lemma foldl_max_le (now : ℤ) :
    ∀ (l : List Checkin) (a : ℤ), a ≤ now → (∀ c ∈ l, c.timestamp ≤ now) →
      l.foldl (fun m c2 => max m c2.timestamp) a ≤ now := by
  intro l
  induction l with
  | nil => intro a ha _; simpa using ha
  | cons c cs ih =>
      intro a ha hl
      simp only [List.foldl_cons]
      exact ih (max a c.timestamp) (max_le ha (hl c (by simp)))
        fun x hx => hl x (by simp [hx])

lemma maxTs_le_of_forall {now : ℤ} {history : List Checkin}
    (hne : history ≠ []) (h : ∀ c ∈ history, c.timestamp ≤ now) :
    maxTs history ≤ now := by
  cases history with
  | nil => exact absurd rfl hne
  | cons c cs =>
      exact foldl_max_le now cs c.timestamp (h c (by simp))
        fun x hx => h x (by simp [hx])

lemma isEmpty_false_of_ne_nil {history : List Checkin} (hne : history ≠ []) :
    history.isEmpty = false := by
  cases history with
  | nil => exact absurd rfl hne
  | cons a l => rfl

/-! ## Claims -/

/-- C1: for every student whose check-in history is empty, the risk query
returns tier "Indeterminado" and the reason collection is exactly the
single fixed empty-history message, whatever the predictor returns and
whatever the plan is; the override replaces the probability-threshold
tiers and the "Erro na Previsão" tier alike. -/
theorem C1_historico_vazio (predict : Metricas → Option ℚ) (now : ℤ)
    (plano : Option String) :
    (riscoChurnGet predict now [] plano).classificacao = "Indeterminado" ∧
    (riscoChurnGet predict now [] plano).motivos = [Motivo.semCheckins] := by
  exact ⟨rfl, rfl⟩

/-- C5 counterexample: with an empty history and a predictor returning the
probability 1/2, the returned probability field is the rounded number, not
the "N/A" sentinel, so the probability is computed even without check-ins. -/
theorem C5_counterexample :
    (riscoChurnGet (fun _ => some (1 / 2)) 0 [] none).probabilidade = some (1 / 2) ∧
    (riscoChurnGet (fun _ => some (1 / 2)) 0 [] none).probabilidade ≠ none := by
  have h : (riscoChurnGet (fun _ => some (1 / 2)) 0 [] none).probabilidade =
      some (round2 (1 / 2)) := rfl
  have h2 : round2 (1 / 2) = 1 / 2 := by
    rw [round2_of_mul_eq (a := 50) (by norm_num)]
    norm_num
  rw [h, h2]
  exact ⟨rfl, by simp⟩

/-- C5 amended: for every student with an empty check-in history the model
probability is still computed, on the sentinel feature vector; the
probability field of the returned assessment is that probability rounded
to 2 decimals when the model yields one, and the "N/A" sentinel exactly
when the model yields none. -/
theorem C5_probabilidade_amended (predict : Metricas → Option ℚ) (now : ℤ)
    (plano : Option String) :
    (riscoChurnGet predict now [] plano).probabilidade =
      Option.map round2 (predict (computeMetricas now [] plano)) ∧
    (predict (computeMetricas now [] plano) = none →
      (riscoChurnGet predict now [] plano).probabilidade = none) := by
  refine ⟨rfl, fun h => ?_⟩
  simp [riscoChurnGet, h]

/-- C5 amended, witness: a predictor with no model yields the sentinel. -/
theorem C5_probabilidade_amended_witness :
    (riscoChurnGet (fun _ => none) 0 [] none).probabilidade = none :=
  (C5_probabilidade_amended (fun _ => none) 0 none).2 rfl

/-- C6 counterexample: a single check-in one day in the future of `now`
makes the feature -1, which is neither nonnegative nor the sentinel; and a
single check-in 999 days before `now` makes the feature 999 although the
history is not empty, so 999 does not characterize the empty history. -/
theorem C6_counterexample :
    diasDesdeUltimoCheckin 0 [⟨86400, none⟩] = -1 ∧
    diasDesdeUltimoCheckin (999 * 86400) [⟨0, none⟩] = 999 := by
  decide

/-- C6 amended: the feature is 999 when the history is empty; otherwise it
is the whole-day floor of `now` minus the maximum check-in timestamp, a
value that is nonnegative (possibly 0) whenever no check-in lies in the
future of `now`, can be negative for future-dated check-ins, and can also
be 999 for a sufficiently old non-empty history. -/
theorem C6_dias_amended (now : ℤ) (history : List Checkin) :
    (history = [] → diasDesdeUltimoCheckin now history = 999) ∧
    (history ≠ [] →
      diasDesdeUltimoCheckin now history =
        (now - maxTs history).fdiv segundosPorDia ∧
      ((∀ c ∈ history, c.timestamp ≤ now) →
        0 ≤ diasDesdeUltimoCheckin now history)) := by
  constructor
  · intro h; subst h; rfl
  · intro hne
    have hE := isEmpty_false_of_ne_nil hne
    constructor
    · simp [diasDesdeUltimoCheckin, hE]
    · intro hall
      have hmax := maxTs_le_of_forall hne hall
      have h0 : (0 : ℤ) ≤ now - maxTs history := by linarith
      simp only [diasDesdeUltimoCheckin, hE, Bool.false_eq_true, if_false]
      exact Int.fdiv_nonneg h0 (by norm_num [segundosPorDia])

/-- C6 amended, witness: one check-in at time 0 seen from day 5. -/
theorem C6_dias_amended_witness :
    diasDesdeUltimoCheckin (5 * 86400) [⟨0, none⟩] =
      (5 * 86400 - maxTs [⟨0, none⟩]).fdiv segundosPorDia ∧
    0 ≤ diasDesdeUltimoCheckin (5 * 86400) [⟨0, none⟩] := by
  have h := (C6_dias_amended (5 * 86400) [⟨0, none⟩]).2 (by decide)
  exact ⟨h.1, h.2 (by decide)⟩

/-- C7: the average visit duration is the sum of the non-null durations
over the count of all check-ins, 0 on an empty history or a zero total,
and it is rounded to 1 decimal both in the feature vector handed to the
predictor and in the returned metrics block. -/
theorem C7_duracao_media (predict : Metricas → Option ℚ) (now : ℤ)
    (history : List Checkin) (plano : Option String) :
    (history ≠ [] → duracaoTotal history ≠ 0 →
      duracaoMediaVisitas history =
        (duracaoTotal history : ℚ) / (history.length : ℚ)) ∧
    (history = [] ∨ duracaoTotal history = 0 →
      duracaoMediaVisitas history = 0) ∧
    (computeMetricas now history plano).duracaoMediaVisitasMinutos =
      round1 (duracaoMediaVisitas history) ∧
    (riscoChurnGet predict now history plano).metricas.duracaoMediaVisitasMinutos =
      round1 (duracaoMediaVisitas history) := by
  refine ⟨?_, ?_, rfl, ?_⟩
  · intro hne hd
    have hl : 0 < history.length := List.length_pos.mpr hne
    have hdp : 0 < duracaoTotal history := Nat.pos_of_ne_zero hd
    simp [duracaoMediaVisitas, hl, hdp]
  · rintro (h | h)
    · subst h; rfl
    · simp [duracaoMediaVisitas, h]
  · cases hE : history.isEmpty with
    | true =>
        have h0 : history = [] := List.isEmpty_iff.mp hE
        subst h0; rfl
    | false => simp [riscoChurnGet, hE]

/-- C7 witness: two check-ins, one with duration 10 and one with a null
duration, average over both; and the empty-history zero case. -/
theorem C7_duracao_media_witness :
    duracaoMediaVisitas [⟨0, some 10⟩, ⟨86400, none⟩] =
      (duracaoTotal [⟨0, some 10⟩, ⟨86400, none⟩] : ℚ) /
        ((([⟨0, some 10⟩, ⟨86400, none⟩] : List Checkin)).length : ℚ) ∧
    duracaoMediaVisitas [] = 0 := by
  exact ⟨(C7_duracao_media (fun _ => none) 0 [⟨0, some 10⟩, ⟨86400, none⟩] none).1
          (by decide) (by decide),
         (C7_duracao_media (fun _ => none) 0 [] none).2.1 (Or.inl rfl)⟩

lemma classificaRisco_some_fst (p : ℚ) (dias : ℤ) (dm fr : ℚ) (tc : ℕ) :
    (classificaRisco (some p) dias dm fr tc).1 =
      if 7 / 10 ≤ p then "Muito Alto"
      else if 1 / 2 ≤ p then "Alto"
      else if 3 / 10 ≤ p then "Médio"
      else "Baixo" := by
  simp only [classificaRisco]
  split_ifs <;> rfl

lemma classificaRisco_baixo (p : ℚ) (dias : ℤ) (dm fr : ℚ) (tc : ℕ)
    (h : p < 3 / 10) :
    classificaRisco (some p) dias dm fr tc =
      ("Baixo", [Motivo.probBaixa (round2 p)]) := by
  have h1 : ¬ (7 / 10 ≤ p) := by linarith
  have h2 : ¬ ((1 : ℚ) / 2 ≤ p) := by linarith
  have h3 : ¬ ((3 : ℚ) / 10 ≤ p) := not_le.mpr h
  simp only [classificaRisco]
  rw [if_neg h1, if_neg h2, if_neg h3]
  simp

/-- C2: with a non-empty history and an available probability `p`, the
tier of the risk query follows the closed-below bins, most severe first:
at least 0.70 is "Muito Alto", at least 0.50 and below 0.70 is "Alto", at
least 0.30 and below 0.50 is "Médio", below 0.30 is "Baixo"; the boundary
values 0.70, 0.50 and 0.30 land in the more severe bin. -/
theorem C2_faixas_probabilidade (predict : Metricas → Option ℚ) (now : ℤ)
    (history : List Checkin) (plano : Option String) (p : ℚ)
    (hne : history ≠ [])
    (hp : predict (computeMetricas now history plano) = some p) :
    (7 / 10 ≤ p →
      (riscoChurnGet predict now history plano).classificacao = "Muito Alto") ∧
    (1 / 2 ≤ p ∧ p < 7 / 10 →
      (riscoChurnGet predict now history plano).classificacao = "Alto") ∧
    (3 / 10 ≤ p ∧ p < 1 / 2 →
      (riscoChurnGet predict now history plano).classificacao = "Médio") ∧
    (p < 3 / 10 →
      (riscoChurnGet predict now history plano).classificacao = "Baixo") := by
  have hE := isEmpty_false_of_ne_nil hne
  have hcl : (riscoChurnGet predict now history plano).classificacao =
      if 7 / 10 ≤ p then "Muito Alto"
      else if 1 / 2 ≤ p then "Alto"
      else if 3 / 10 ≤ p then "Médio"
      else "Baixo" := by
    simp only [riscoChurnGet, hp, hE, Bool.false_eq_true, if_false]
    exact classificaRisco_some_fst p _ _ _ _
  refine ⟨fun h => ?_, fun h => ?_, fun h => ?_, fun h => ?_⟩ <;> rw [hcl]
  · rw [if_pos h]
  · rw [if_neg (by linarith [h.2]), if_pos h.1]
  · rw [if_neg (by linarith [h.2]), if_neg (by linarith [h.2]), if_pos h.1]
  · rw [if_neg (by linarith), if_neg (by linarith), if_neg (not_le.mpr h)]

/-- C2 witness: the six boundary probabilities of the claim, each on a
one-check-in history. -/
theorem C2_faixas_probabilidade_witness :
    (riscoChurnGet (fun _ => some (7 / 10)) 0 [⟨0, none⟩] none).classificacao =
      "Muito Alto" ∧
    (riscoChurnGet (fun _ => some (6999 / 10000)) 0 [⟨0, none⟩] none).classificacao =
      "Alto" ∧
    (riscoChurnGet (fun _ => some (1 / 2)) 0 [⟨0, none⟩] none).classificacao =
      "Alto" ∧
    (riscoChurnGet (fun _ => some (4999 / 10000)) 0 [⟨0, none⟩] none).classificacao =
      "Médio" ∧
    (riscoChurnGet (fun _ => some (3 / 10)) 0 [⟨0, none⟩] none).classificacao =
      "Médio" ∧
    (riscoChurnGet (fun _ => some (2999 / 10000)) 0 [⟨0, none⟩] none).classificacao =
      "Baixo" := by
  refine ⟨?_, ?_, ?_, ?_, ?_, ?_⟩
  · exact (C2_faixas_probabilidade _ 0 _ none (7 / 10) (by decide) rfl).1
      (by norm_num)
  · exact (C2_faixas_probabilidade _ 0 _ none (6999 / 10000) (by decide) rfl).2.1
      ⟨by norm_num, by norm_num⟩
  · exact (C2_faixas_probabilidade _ 0 _ none (1 / 2) (by decide) rfl).2.1
      ⟨by norm_num, by norm_num⟩
  · exact (C2_faixas_probabilidade _ 0 _ none (4999 / 10000) (by decide) rfl).2.2.1
      ⟨by norm_num, by norm_num⟩
  · exact (C2_faixas_probabilidade _ 0 _ none (3 / 10) (by decide) rfl).2.2.1
      ⟨by norm_num, by norm_num⟩
  · exact (C2_faixas_probabilidade _ 0 _ none (2999 / 10000) (by decide) rfl).2.2.2
      (by norm_num)

/-- C3: on a non-empty history the weekly frequency follows the two-tier
policy: the 30-day override divides the count of recent check-ins by
30/7 whenever at least one check-in lies in the closed 30-day window, and
otherwise the base estimate applies, `count / age_in_days * 7` for a
positive whole-day age of the earliest check-in and 0 for age zero. -/
theorem C3_frequencia_semanal (now : ℤ) (history : List Checkin)
    (hne : history ≠ []) :
    ((∃ c ∈ history, now - 30 * segundosPorDia ≤ c.timestamp) →
      frequenciaSemanal now history =
        ((history.countP fun c =>
          decide (now - 30 * segundosPorDia ≤ c.timestamp)) : ℚ) /
          ((30 : ℚ) / 7)) ∧
    ((∀ c ∈ history, ¬ (now - 30 * segundosPorDia ≤ c.timestamp)) →
      (0 < (now - minTs history).fdiv segundosPorDia →
        frequenciaSemanal now history =
          ((history.length : ℚ) /
            (((now - minTs history).fdiv segundosPorDia : ℤ) : ℚ)) * 7) ∧
      ((now - minTs history).fdiv segundosPorDia = 0 →
        frequenciaSemanal now history = 0)) := by
  have hE := isEmpty_false_of_ne_nil hne
  constructor
  · rintro ⟨c, hc, hts⟩
    have hmem : c ∈ history.filter fun c =>
        decide (now - 30 * segundosPorDia ≤ c.timestamp) :=
      List.mem_filter.mpr ⟨hc, by simpa using hts⟩
    have hpos : 0 < (history.filter fun c =>
        decide (now - 30 * segundosPorDia ≤ c.timestamp)).length :=
      List.length_pos.mpr fun hnil => absurd (hnil ▸ hmem) (List.not_mem_nil c)
    rw [List.countP_eq_length_filter]
    simp only [frequenciaSemanal, hE, Bool.false_eq_true, if_false]
    rw [if_pos hpos]
  · intro hall
    have hnil : (history.filter fun c =>
        decide (now - 30 * segundosPorDia ≤ c.timestamp)) = [] :=
      List.filter_eq_nil_iff.mpr fun c hc => by simpa using hall c hc
    constructor
    · intro hpos
      simp only [frequenciaSemanal, hE, Bool.false_eq_true, if_false, hnil]
      simp [hpos]
    · intro h0
      simp only [frequenciaSemanal, hE, Bool.false_eq_true, if_false, hnil]
      simp [h0]

/-- C3 witness: a single recent check-in takes the 30-day override, and a
single 40-day-old check-in takes the base estimate. -/
theorem C3_frequencia_semanal_witness :
    frequenciaSemanal 0 [⟨0, none⟩] =
      ((([⟨0, none⟩] : List Checkin).countP fun c =>
        decide (0 - 30 * segundosPorDia ≤ c.timestamp)) : ℚ) / ((30 : ℚ) / 7) ∧
    frequenciaSemanal (40 * 86400) [⟨0, none⟩] =
      ((([⟨0, none⟩] : List Checkin).length : ℚ) /
        (((40 * 86400 - minTs [⟨0, none⟩]).fdiv segundosPorDia : ℤ) : ℚ)) * 7 := by
  constructor
  · exact (C3_frequencia_semanal 0 [⟨0, none⟩] (by decide)).1
      ⟨⟨0, none⟩, by decide, by decide⟩
  · exact ((C3_frequencia_semanal (40 * 86400) [⟨0, none⟩] (by decide)).2
      (by decide)).1 (by decide)

/-- C4: the returned reason collection never contains duplicates, and when
the probability-threshold tier of step 3 is "Baixo" none of the three
contextual reasons appears in it, whatever the numeric conditions. -/
theorem C4_baixo_sem_motivos_contextuais (predict : Metricas → Option ℚ)
    (now : ℤ) (history : List Checkin) (plano : Option String) :
    (riscoChurnGet predict now history plano).motivos.Nodup ∧
    (∀ p : ℚ, predict (computeMetricas now history plano) = some p →
      p < 3 / 10 →
      ∀ m ∈ (riscoChurnGet predict now history plano).motivos,
        m.contextual = false) := by
  constructor
  · simp only [riscoChurnGet]
    exact List.nodup_dedup _
  · intro p hp hlt m hm
    cases hE : history.isEmpty with
    | true =>
        simp [riscoChurnGet, hE] at hm
        subst hm
        rfl
    | false =>
        have hb := classificaRisco_baixo (h := hlt)
        simp [riscoChurnGet, hp, hE, hb] at hm
        subst hm
        rfl

/-- C4 witness: six old short low-frequency check-ins with probability
0.1: the contextual conditions all hold numerically, the tier is "Baixo",
and the day-count reason (the value would be 95) is absent. -/
theorem C4_baixo_sem_motivos_contextuais_witness :
    (riscoChurnGet (fun _ => some (1 / 10)) (100 * 86400)
      [⟨0, some 10⟩, ⟨86400, some 10⟩, ⟨2 * 86400, some 10⟩,
       ⟨3 * 86400, some 10⟩, ⟨4 * 86400, some 10⟩, ⟨5 * 86400, some 10⟩]
      none).motivos.Nodup ∧
    Motivo.ultimoCheckinDias 95 ∉
      (riscoChurnGet (fun _ => some (1 / 10)) (100 * 86400)
        [⟨0, some 10⟩, ⟨86400, some 10⟩, ⟨2 * 86400, some 10⟩,
         ⟨3 * 86400, some 10⟩, ⟨4 * 86400, some 10⟩, ⟨5 * 86400, some 10⟩]
        none).motivos := by
  refine ⟨(C4_baixo_sem_motivos_contextuais (fun _ => some (1 / 10))
    (100 * 86400) _ none).1, fun hmem => ?_⟩
  have h := (C4_baixo_sem_motivos_contextuais (fun _ => some (1 / 10))
    (100 * 86400)
    [⟨0, some 10⟩, ⟨86400, some 10⟩, ⟨2 * 86400, some 10⟩,
     ⟨3 * 86400, some 10⟩, ⟨4 * 86400, some 10⟩, ⟨5 * 86400, some 10⟩]
    none).2 (1 / 10) rfl (by norm_num) _ hmem
  simp [Motivo.contextual] at h

/-- C8: a delivery is acknowledged exactly when its payload decoded and
its handler ran to completion; a payload failing JSON decoding, and any
exception raised during handling, leads to a negative acknowledgment and
never to an acknowledgment. -/
theorem C8_ack_sse_sucesso (parseIsoDate : String → Option ℤ) (nowDate : ℤ) :
    (processCheckinMessage parseIsoDate nowDate none).1 = Outcome.nacked ∧
    (∀ raw : RawMessage,
      (dispatchMessage parseIsoDate nowDate raw).2.2 = false →
        (processCheckinMessage parseIsoDate nowDate (some raw)).1 =
          Outcome.acked) ∧
    (∀ raw : RawMessage,
      (dispatchMessage parseIsoDate nowDate raw).2.2 = true →
        (processCheckinMessage parseIsoDate nowDate (some raw)).1 =
          Outcome.nacked) ∧
    (∀ body : Option RawMessage,
      (processCheckinMessage parseIsoDate nowDate body).1 = Outcome.acked ↔
        ∃ raw, body = some raw ∧
          (dispatchMessage parseIsoDate nowDate raw).2.2 = false) := by
  refine ⟨rfl, fun raw h => ?_, fun raw h => ?_, fun body => ?_⟩
  · simp [processCheckinMessage, h]
  · simp [processCheckinMessage, h]
  · cases body with
    | none => simp [processCheckinMessage]
    | some raw =>
        cases hb : (dispatchMessage parseIsoDate nowDate raw).2.2 with
        | true => simp [processCheckinMessage, hb]
        | false => simp [processCheckinMessage, hb]

/-- C8 witness: a malformed payload is nacked, a decoded check-in event is
acked, a report event whose date string fails to parse is nacked. -/
theorem C8_ack_sse_sucesso_witness :
    (processCheckinMessage (fun _ => none) 0 none).1 = Outcome.nacked ∧
    (processCheckinMessage (fun _ => none) 0
      (some ⟨some "new_checkin_event", some 1, some 2, none, none⟩)).1 =
      Outcome.acked ∧
    (processCheckinMessage (fun _ => none) 0
      (some ⟨some "generate_daily_report_event", none, none, none,
        some "bad-date"⟩)).1 = Outcome.nacked := by
  refine ⟨(C8_ack_sse_sucesso (fun _ => none) 0).1, ?_, ?_⟩
  · exact (C8_ack_sse_sucesso (fun _ => none) 0).2.1
      ⟨some "new_checkin_event", some 1, some 2, none, none⟩ rfl
  · exact (C8_ack_sse_sucesso (fun _ => none) 0).2.2.1
      ⟨some "generate_daily_report_event", none, none, none,
        some "bad-date"⟩ rfl

/-- C9: a decoded message whose type is none of the four known event
types produces the warning, no handler side effect, and an
acknowledgment, without raising. -/
theorem C9_tipo_desconhecido (parseIsoDate : String → Option ℤ)
    (nowDate : ℤ) (raw : RawMessage)
    (h1 : raw.type ≠ some "new_checkin_event")
    (h2 : raw.type ≠ some "bulk_checkin_event")
    (h3 : raw.type ≠ some "generate_daily_report_event")
    (h4 : raw.type ≠ some "retrain_model_event") :
    processCheckinMessage parseIsoDate nowDate (some raw) =
      (Outcome.acked, [], true) := by
  simp [processCheckinMessage, dispatchMessage, h1, h2, h3, h4]

/-- C9 witness: the message of type "foo" from the end-to-end scenario. -/
theorem C9_tipo_desconhecido_witness :
    processCheckinMessage (fun _ => none) 0
      (some ⟨some "foo", none, none, none, none⟩) =
      (Outcome.acked, [], true) :=
  C9_tipo_desconhecido (fun _ => none) 0
    ⟨some "foo", none, none, none, none⟩
    (by decide) (by decide) (by decide) (by decide)

/-- C10: retraining always refits on the fixed dummy dataset with the
fixed seed 42, so it is idempotent on the predictor state: a second
retrain leaves the state unchanged, and a prediction on any feature
vector is the same after one retrain as after any number of further
retrains. -/
theorem C10_retreinamento_idempotente (Modelo : Type)
    (fitLR : ℕ → List LinhaTreino → Modelo)
    (predictProba : Modelo → Metricas → ℚ) (diskModel : Option Modelo)
    (s : PredictorState Modelo) (n : ℕ) (feats : Metricas) :
    (retrainAndSaveModel fitLR s).model = some (fitLR 42 createDummyData) ∧
    retrainAndSaveModel fitLR (retrainAndSaveModel fitLR s) =
      retrainAndSaveModel fitLR s ∧
    (predictChurnProbability fitLR predictProba diskModel
        ((retrainAndSaveModel fitLR)^[n] (retrainAndSaveModel fitLR s))
        feats).1 =
      (predictChurnProbability fitLR predictProba diskModel
        (retrainAndSaveModel fitLR s) feats).1 := by
  refine ⟨rfl, rfl, ?_⟩
  rw [Function.iterate_fixed rfl]

end Academia
